import Mathlib

/-!
Verification of the educational-notes platform (React + Supabase).

The authorization model is declared as SQL row-level-security (RLS) policies in
the migrations embedded in `src/src/App.tsx` and `src/unnamed/part_004`; the
client-side handlers live in `src/unnamed/part_000` (Dashboard),
`src/unnamed/part_001` (SubjectManagement) and `src/unnamed/part_002`
(UserManagement, ContentManagement).  This file embeds the four tables, the
RLS policies, the `handle_new_user` provisioning trigger, the cascade delete,
and the client handlers as executable Lean definitions, and proves the stated
properties about them.
-/

namespace EdNotes

/-- Row of `public.users`: `id uuid PRIMARY KEY`, `email text UNIQUE`,
`access boolean DEFAULT false`, `is_admin boolean DEFAULT false`.
Opaque uuids are modelled as `Nat`; `created_at` carries no logic and is
omitted. -/
structure UserRow where
  id : Nat
  email : String
  access : Bool
  is_admin : Bool
  deriving DecidableEq

/-- Row of `public.subjects`: `id`, `name text NOT NULL`, `description text`. -/
structure SubjectRow where
  id : Nat
  name : String
  description : Option String
  deriving DecidableEq

/-- Row of `public.notes`: `id`, `subject_id REFERENCES subjects(id) ON DELETE
CASCADE`, `title`, `pdf_url`. -/
structure NoteRow where
  id : Nat
  subject_id : Nat
  title : String
  pdf_url : String
  deriving DecidableEq

/-- Row of `public.videos`: `id`, `subject_id REFERENCES subjects(id) ON DELETE
CASCADE`, `title`, `youtube_url`. -/
structure VideoRow where
  id : Nat
  subject_id : Nat
  title : String
  youtube_url : String
  deriving DecidableEq

/-- The four RLS-protected tables of the store. -/
structure DB where
  users : List UserRow
  subjects : List SubjectRow
  notes : List NoteRow
  videos : List VideoRow
  deriving DecidableEq

/-- `EXISTS (SELECT 1 FROM users WHERE id = auth.uid() AND is_admin = true)` —
the subquery shared by every admin policy. -/
def isAdminExists (db : DB) (uid : Nat) : Bool :=
  db.users.any (fun u => u.id == uid && u.is_admin)

/-- `EXISTS (SELECT 1 FROM users WHERE id = auth.uid() AND access = true)` —
the subquery of the two "Users with access can read" policies. -/
def hasAccessExists (db : DB) (uid : Nat) : Bool :=
  db.users.any (fun u => u.id == uid && u.access)

/-- Per-row SELECT permission on `users`: policy "Users can read own data"
(`USING (auth.uid() = id)`) OR policy "Admins can read all users".
Permissive policies are disjoined, as in Postgres. -/
def usersSelectPolicy (db : DB) (uid : Nat) (row : UserRow) : Bool :=
  row.id == uid || isAdminExists db uid

/-- Per-row UPDATE permission on `users`: policy "Users can update own data"
(`USING (auth.uid() = id)`, no WITH CHECK, no column restriction) OR policy
"Admins can update all users". -/
def usersUpdatePolicy (db : DB) (uid : Nat) (row : UserRow) : Bool :=
  row.id == uid || isAdminExists db uid

/-- Per-row SELECT permission on `subjects`: policy "Authenticated users can
read subjects" (`USING (true)`) OR the SELECT part of "Admins can manage
subjects" (`FOR ALL`). -/
def subjectsSelectPolicy (db : DB) (uid : Nat) (_row : SubjectRow) : Bool :=
  true || isAdminExists db uid

/-- Write (INSERT/UPDATE/DELETE) permission on `subjects`: only policy
"Admins can manage subjects" (`FOR ALL USING (admin EXISTS)`) applies. -/
def subjectsWriteAllowed (db : DB) (uid : Nat) : Bool :=
  isAdminExists db uid

/-- Per-row SELECT permission on `notes`: policy "Users with access can read
notes" OR the SELECT part of "Admins can manage notes" (`FOR ALL`). -/
def notesSelectPolicy (db : DB) (uid : Nat) (_row : NoteRow) : Bool :=
  hasAccessExists db uid || isAdminExists db uid

/-- Write permission on `notes`: policy "Admins can manage notes". -/
def notesWriteAllowed (db : DB) (uid : Nat) : Bool :=
  isAdminExists db uid

/-- Per-row SELECT permission on `videos`: policy "Users with access can read
videos" OR the SELECT part of "Admins can manage videos" (`FOR ALL`). -/
def videosSelectPolicy (db : DB) (uid : Nat) (_row : VideoRow) : Bool :=
  hasAccessExists db uid || isAdminExists db uid

/-- Write permission on `videos`: policy "Admins can manage videos". -/
def videosWriteAllowed (db : DB) (uid : Nat) : Bool :=
  isAdminExists db uid

/-- Result of `SELECT * FROM subjects` issued as account `uid`: RLS keeps the
rows passing some SELECT policy. -/
def visibleSubjects (db : DB) (uid : Nat) : List SubjectRow :=
  db.subjects.filter (subjectsSelectPolicy db uid)

/-- Result of `SELECT * FROM notes` issued as account `uid`. -/
def visibleNotes (db : DB) (uid : Nat) : List NoteRow :=
  db.notes.filter (notesSelectPolicy db uid)

/-- Result of `SELECT * FROM videos` issued as account `uid`. -/
def visibleVideos (db : DB) (uid : Nat) : List VideoRow :=
  db.videos.filter (videosSelectPolicy db uid)

/-- Result of `SELECT * FROM users` issued as account `uid`. -/
def visibleUsers (db : DB) (uid : Nat) : List UserRow :=
  db.users.filter (usersSelectPolicy db uid)

/-- `UPDATE users SET ... WHERE id = target` issued as account `uid`, under
RLS: the rows matching the WHERE clause and visible through some UPDATE
policy's USING clause are updated; each updated row must satisfy some
policy's WITH CHECK clause (defaulting to its USING clause, as neither users
policy declares WITH CHECK), otherwise the statement errors (`none`). -/
def updateUserRows (db : DB) (uid target : Nat) (f : UserRow → UserRow) : Option DB :=
  if db.users.all (fun u =>
      if u.id == target && usersUpdatePolicy db uid u then
        usersUpdatePolicy db uid (f u)
      else true) then
    some { db with
            users := db.users.map (fun u =>
              if u.id == target && usersUpdatePolicy db uid u then f u else u) }
  else none

/-- `UserManagement.toggleUserAccess` (src/unnamed/part_002):
`update({ access: !currentAccess }).eq('id', userId)`. -/
def toggleUserAccess (db : DB) (uid targetId : Nat) (currentAccess : Bool) : Option DB :=
  updateUserRows db uid targetId (fun u => { u with access := !currentAccess })

/-- `DELETE FROM subjects WHERE id = sid` together with the
`ON DELETE CASCADE` actions declared on `notes.subject_id` and
`videos.subject_id` (schema in src/src/App.tsx and src/unnamed/part_004);
issued from `SubjectManagement.handleDelete` (src/unnamed/part_001). -/
def deleteSubject (db : DB) (sid : Nat) : DB :=
  { db with
      subjects := db.subjects.filter (fun s => !(s.id == sid)),
      notes := db.notes.filter (fun n => !(n.subject_id == sid)),
      videos := db.videos.filter (fun v => !(v.subject_id == sid)) }

/-- No Note or Video row references a Subject that does not exist. -/
def noOrphans (db : DB) : Prop :=
  (∀ n ∈ db.notes, ∃ s ∈ db.subjects, s.id = n.subject_id) ∧
  (∀ v ∈ db.videos, ∃ s ∈ db.subjects, s.id = v.subject_id)

/-- State for account provisioning: the platform's `auth.users` table
(identity id, email) together with the application's `public.users` table. -/
structure AuthState where
  auth_users : List (Nat × String)
  users : List UserRow
  deriving DecidableEq

/-- `handle_new_user` trigger function (src/unnamed/part_004, lines 202-217):
`INSERT INTO public.users (id, email, access, is_admin) VALUES (NEW.id,
NEW.email, false, false)`; a unique-constraint violation (duplicate `id`
primary key or duplicate `email`) raises, is caught by the
`EXCEPTION WHEN others` handler, logged, and swallowed, leaving the table
unchanged. -/
def handle_new_user (users : List UserRow) (id : Nat) (email : String) : List UserRow :=
  if users.any (fun u => u.id == id || u.email == email) then users
  else users ++ [⟨id, email, false, false⟩]

/-- One successful authentication of identity `(id, email)`.  Only the first
authentication of a new identity inserts a row into `auth.users`; the trigger
`on_auth_user_created` (`AFTER INSERT ON auth.users FOR EACH ROW`) then runs
`handle_new_user`.  Later authentications of an existing identity insert
nothing, so the trigger does not fire. -/
def authenticate (s : AuthState) (id : Nat) (email : String) : AuthState :=
  if s.auth_users.any (fun p => p.1 == id) then s
  else { auth_users := s.auth_users ++ [(id, email)],
         users := handle_new_user s.users id email }

/-- `n` successive authentications of the same identity. -/
def authN (s : AuthState) : Nat → Nat → String → AuthState
  | 0, _, _ => s
  | n + 1, id, email => authN (authenticate s id email) n id email

/-- The three content queries `Dashboard.fetchContent` issues in parallel
(src/unnamed/part_000, lines 21-27). -/
inductive ContentQuery where
  | subjects
  | notes
  | videos
  deriving DecidableEq

/-- `user?.access`: the optional signed-in profile's access flag, `false`
when the profile is absent (JS optional chaining yields `undefined`). -/
def optUserAccess (user : Option UserRow) : Bool :=
  match user with
  | some u => u.access
  | none => false

/-- Queries issued by the Dashboard's effect (src/unnamed/part_000, lines
13-19): `if (user?.access) fetchContent()`, and `fetchContent` queries
subjects, notes and videos; otherwise no query is issued. -/
def dashboardQueries (user : Option UserRow) : List ContentQuery :=
  if optUserAccess user then [.subjects, .notes, .videos] else []

/-- The Dashboard's render guard (src/unnamed/part_000, lines 58-73):
`if (!user?.access)` it renders the "Access Pending" notice. -/
def dashboardShowsAccessPending (user : Option UserRow) : Bool :=
  !optUserAccess user

/-- The whitespace characters relevant to JS `String.prototype.trim` for the
inputs of this application. -/
def isJsWhitespace (c : Char) : Bool :=
  c == ' ' || c == '\t' || c == '\n' || c == '\r'

/-- JS `String.prototype.trim`: strip leading and trailing whitespace. -/
def jsTrim (s : String) : String :=
  String.mk (((s.toList.dropWhile isJsWhitespace).reverse.dropWhile isJsWhitespace).reverse)

/-- The `editingSubject` form state of `SubjectManagement`
(src/unnamed/part_001): optional row id (absent when adding), name,
optional description. -/
structure EditingSubject where
  id : Option Nat
  name : String
  description : Option String
  deriving DecidableEq

/-- Outcome of `SubjectManagement.handleSave`: the resulting `subjects`
table, whether a write was issued, and the message surfaced to the caller,
if any (`console.error` is a log, not a surfaced rejection). -/
structure SaveOutcome where
  subjects : List SubjectRow
  wrote : Bool
  surfaced : Option String
  deriving DecidableEq

/-- `editingSubject.description?.trim() || null` in `handleSave`
(src/unnamed/part_001, lines 45-48 and 62-65). -/
def descOrNull (d : Option String) : Option String :=
  match d with
  | none => none
  | some s => if jsTrim s = ("" : String) then none else some (jsTrim s)

/-- `SubjectManagement.handleSave` (src/unnamed/part_001, lines 37-78):
`if (!editingSubject || !editingSubject.name.trim()) return` — validation
failure returns silently, surfacing nothing; otherwise an UPDATE (when
`editingSubject.id` is set) or an INSERT is issued.  A fresh id for the
INSERT case is supplied as `newId`. -/
def handleSave (editing : Option EditingSubject) (newId : Nat)
    (subjects : List SubjectRow) : SaveOutcome :=
  match editing with
  | none => ⟨subjects, false, none⟩
  | some e =>
    if jsTrim e.name = ("" : String) then ⟨subjects, false, none⟩
    else
      match e.id with
      | some sid =>
        ⟨subjects.map (fun s =>
            if s.id == sid then
              { s with name := jsTrim e.name, description := descOrNull e.description }
            else s),
         true, none⟩
      | none =>
        ⟨subjects ++ [⟨newId, jsTrim e.name, descOrNull e.description⟩], true, none⟩

/-- Outcome of `ContentManagement.handleAddNote`: the resulting `notes`
table, whether a write was issued, and the message surfaced to the caller,
if any. -/
structure NoteOutcome where
  notes : List NoteRow
  wrote : Bool
  surfaced : Option String
  deriving DecidableEq

/-- `handleFileUpload` (src/unnamed/part_002, lines 228-244): uploads under
the path `pdfs/<name>` and returns the bucket's public URL for that path. -/
def uploadPublicUrl (file : String) : String :=
  ("pdfs/" : String) ++ file

/-- `ContentManagement.handleAddNote` (src/unnamed/part_002, lines 246-272):
`if (!newNote.title || !newNote.file || !selectedSubject) return` — a
validation failure (empty title, no file chosen, no subject selected)
returns silently; otherwise the file is uploaded and an INSERT into `notes`
is issued.  The empty `selectedSubject` string is modelled as `none`. -/
def handleAddNote (title : String) (file : Option String)
    (selectedSubject : Option Nat) (newId : Nat)
    (notes : List NoteRow) : NoteOutcome :=
  if title == ("" : String) || file.isNone || selectedSubject.isNone then
    ⟨notes, false, none⟩
  else
    ⟨notes ++ [⟨newId, selectedSubject.getD 0, title, uploadPublicUrl (file.getD ("" : String))⟩],
     true, none⟩

/-- The delimiter class `[&\n?#]` of `Dashboard.getYouTubeVideoId`'s regex
(src/unnamed/part_000, line 40). -/
def ytDelim (c : Char) : Bool :=
  c == '&' || c == '\n' || c == '?' || c == '#'

/-- The literal alternative `youtube.com/watch?v=` of the regex. -/
def ytMarker1 : List Char :=
  ['y', 'o', 'u', 't', 'u', 'b', 'e', '.', 'c', 'o', 'm', '/',
   'w', 'a', 't', 'c', 'h', '?', 'v', '=']

/-- The literal alternative `youtu.be/` of the regex. -/
def ytMarker2 : List Char :=
  ['y', 'o', 'u', 't', 'u', '.', 'b', 'e', '/']

/-- Attempt of one regex alternative at the current position: the marker `m`
must match literally and the greedy group `([^&\n?#]+)` must capture at
least one character. -/
def tryMarker (m s : List Char) : Option (List Char) :=
  if m.isPrefixOf s then
    if (s.drop m.length).takeWhile (fun c => !ytDelim c) = [] then none
    else some ((s.drop m.length).takeWhile (fun c => !ytDelim c))
  else none

/-- `Dashboard.getYouTubeVideoId` (src/unnamed/part_000, lines 39-42):
`url.match(/(?:youtube\.com\/watch\?v=|youtu\.be\/)([^&\n?#]+)/)` and the
first capture group, `null` when there is no match.  The regex engine scans
positions left to right, trying the first alternative then the second at
each position. -/
def getYouTubeVideoId : List Char → Option (List Char)
  | [] => none
  | c :: rest =>
    match tryMarker ytMarker1 (c :: rest) with
    | some v => some v
    | none =>
      match tryMarker ytMarker2 (c :: rest) with
      | some v => some v
      | none => getYouTubeVideoId rest

/-- Both regex alternatives tried at a single position. -/
def markerCapture (s : List Char) : Option (List Char) :=
  match tryMarker ytMarker1 s with
  | some v => some v
  | none => tryMarker ytMarker2 s

/-- The thumbnail rendering guard (src/unnamed/part_000, lines 150-162):
`{videoId && (<img ... />)}` — the thumbnail is rendered exactly when
`getYouTubeVideoId` extracted an id. -/
def showsThumbnail (url : List Char) : Bool :=
  (getYouTubeVideoId url).isSome

/-- Fixture: an administrator whose `access` flag is false. -/
def adminNoAccess : UserRow := ⟨1, "admin@x", false, true⟩

/-- Fixture: a plain account with neither access nor admin rights. -/
def plainUser : UserRow := ⟨2, "user@x", false, false⟩

/-- Fixture: an account with content access but no admin rights. -/
def accessUser : UserRow := ⟨3, "viewer@x", true, false⟩

/-- Fixture subject row. -/
def subjM : SubjectRow := ⟨4, "Mathematics", none⟩

/-- Fixture note row under `subjM`. -/
def noteCalc : NoteRow := ⟨10, 4, "Calculus Fundamentals", "calc.pdf"⟩

/-- Fixture video row under `subjM`. -/
def vidCalc : VideoRow := ⟨20, 4, "Calculus Explained", "https://youtu.be/W1"⟩

/-- Fixture store holding only the unprivileged account. -/
def dbC1 : DB := ⟨[plainUser], [], [], []⟩

/-- Fixture store holding only the access-less administrator plus content. -/
def dbC2 : DB := ⟨[adminNoAccess], [subjM], [noteCalc], [vidCalc]⟩

/-- Fixture store with all three accounts and some content. -/
def dbFix : DB := ⟨[adminNoAccess, plainUser, accessUser], [subjM], [noteCalc], [vidCalc]⟩

end EdNotes

namespace EdNotes

/-- Claim C1 (code bug evidence): in a store whose only account is the
unprivileged `plainUser` (id 2, `access=false`, `is_admin=false`), account 2
is not an admin and may read its own row, yet the RLS policies permit the
update `UPDATE users SET access=true, is_admin=true WHERE id=2` issued by
account 2 itself: the policy "Users can update own data" (`USING
(auth.uid() = id)`, no WITH CHECK, no column restriction) accepts both the
old and the new row, so a non-admin elevates its own flags, contradicting
the claim that flag changes are permitted only when the actor is an admin. -/
theorem c1_nonadmin_self_elevation_permitted :
    isAdminExists dbC1 2 = false ∧
    (∃ u ∈ dbC1.users, u.id = 2 ∧ usersSelectPolicy dbC1 2 u = true) ∧
    updateUserRows dbC1 2 2 (fun u => { u with access := true, is_admin := true })
      = some ⟨[⟨2, "user@x", true, true⟩], [], [], []⟩ := by
  decide

/-- Claim C2 counterexample: in `dbC2` every account row has `access=false`,
yet the read of notes and videos issued as account 1 (an admin without
access) returns the content rows, because the `FOR ALL` policies "Admins can
manage notes/videos" also grant SELECT.  This falsifies "reads return empty
regardless of the account's other flags (such as isAdmin)". -/
theorem c2_admin_without_access_reads_notes :
    (∀ u ∈ dbC2.users, u.access = false) ∧
    visibleNotes dbC2 1 = [noteCalc] ∧ visibleVideos dbC2 1 = [vidCalc] := by
  decide

/-- Claim C2 (amended): for every account all of whose rows have
`access=false` and `is_admin=false` (in particular any non-admin account
without access, or an absent account), every read of Note or Video rows
returns the empty result, regardless of Subject visibility. -/
theorem c2_no_access_non_admin_reads_empty (db : DB) (uid : Nat)
    (h : ∀ u ∈ db.users, u.id = uid → u.access = false ∧ u.is_admin = false) :
    visibleNotes db uid = [] ∧ visibleVideos db uid = [] := by
  have hacc : hasAccessExists db uid = false := by
    rw [← Bool.not_eq_true, hasAccessExists, List.any_eq_true]
    rintro ⟨u, hu, hb⟩
    simp only [Bool.and_eq_true, beq_iff_eq] at hb
    have := (h u hu hb.1).1
    rw [this] at hb
    exact Bool.false_ne_true hb.2
  have hadm : isAdminExists db uid = false := by
    rw [← Bool.not_eq_true, isAdminExists, List.any_eq_true]
    rintro ⟨u, hu, hb⟩
    simp only [Bool.and_eq_true, beq_iff_eq] at hb
    have := (h u hu hb.1).2
    rw [this] at hb
    exact Bool.false_ne_true hb.2
  refine ⟨?_, ?_⟩ <;>
    simp [visibleNotes, visibleVideos, notesSelectPolicy, videosSelectPolicy, hacc, hadm]

/-- Witness for C2 (amended): the unprivileged account 2 of `dbFix` reads
no notes and no videos even though both exist. -/
theorem c2_witness :
    visibleNotes dbFix 2 = [] ∧ visibleVideos dbFix 2 = [] :=
  c2_no_access_non_admin_reads_empty dbFix 2 (by decide)

/-- Claim C3: for an account `uid` present in the store with unique ids,
every create, update, or delete on Subject, Note, or Video rows is denied
when its `is_admin` flag is false, and permitted when it is true — the three
`FOR ALL` admin policies are the only write rules. -/
theorem c3_writes_require_admin (db : DB) (uid : Nat) (u : UserRow)
    (hu : u ∈ db.users) (hid : u.id = uid)
    (hnodup : (db.users.map (fun r => r.id)).Nodup) :
    (u.is_admin = false →
      subjectsWriteAllowed db uid = false ∧ notesWriteAllowed db uid = false ∧
        videosWriteAllowed db uid = false) ∧
    (u.is_admin = true →
      subjectsWriteAllowed db uid = true ∧ notesWriteAllowed db uid = true ∧
        videosWriteAllowed db uid = true) := by
  have key : isAdminExists db uid = u.is_admin := by
    cases hadm : u.is_admin with
    | true =>
      rw [isAdminExists, List.any_eq_true]
      exact ⟨u, hu, by simp [hid, hadm]⟩
    | false =>
      rw [← Bool.not_eq_true, isAdminExists, List.any_eq_true]
      rintro ⟨v, hv, hb⟩
      simp only [Bool.and_eq_true, beq_iff_eq] at hb
      have hvu : v = u := List.inj_on_of_nodup_map hnodup hv hu (by rw [hb.1, hid])
      rw [hvu, hadm] at hb
      exact Bool.false_ne_true hb.2
  constructor <;> intro h <;>
    simp [subjectsWriteAllowed, notesWriteAllowed, videosWriteAllowed, key, h]

/-- Witness for C3: in `dbFix`, the non-admin account 3 is denied all three
writes while the admin account 1 is permitted all three. -/
theorem c3_witness :
    (subjectsWriteAllowed dbFix 3 = false ∧ notesWriteAllowed dbFix 3 = false ∧
      videosWriteAllowed dbFix 3 = false) ∧
    (subjectsWriteAllowed dbFix 1 = true ∧ notesWriteAllowed dbFix 1 = true ∧
      videosWriteAllowed dbFix 1 = true) :=
  ⟨(c3_writes_require_admin dbFix 3 accessUser (by decide) rfl (by decide)).1 rfl,
   (c3_writes_require_admin dbFix 1 adminNoAccess (by decide) rfl (by decide)).2 rfl⟩

/-- Claim C8: reading the Subject list is permitted for every authenticated
account and returns all Subject rows — the policy "Authenticated users can
read subjects" has `USING (true)`, so the subjects list is not
access-gated. -/
theorem c8_subjects_readable_by_all (db : DB) (uid : Nat) :
    visibleSubjects db uid = db.subjects :=
  List.filter_eq_self.mpr (fun _ _ => rfl)

/-- After any authentication of identity `id`, `auth.users` holds a row for
`id`. -/
lemma authenticate_has_id (s : AuthState) (id : Nat) (email : String) :
    (authenticate s id email).auth_users.any (fun p => p.1 == id) = true := by
  rw [authenticate]
  by_cases h : s.auth_users.any (fun p => p.1 == id) = true
  · rw [if_pos h]; exact h
  · rw [if_neg h]
    simp [List.any_append]

/-- Authenticating an identity already present in `auth.users` changes
nothing: no insert happens, so the trigger does not fire. -/
lemma authenticate_fixed (s : AuthState) (id : Nat) (email : String)
    (h : s.auth_users.any (fun p => p.1 == id) = true) :
    authenticate s id email = s := by
  rw [authenticate, if_pos h]

/-- Iterated authentication of an identity already in `auth.users` is a
no-op. -/
lemma authN_fixed (s : AuthState) (id : Nat) (email : String) (n : Nat)
    (h : s.auth_users.any (fun p => p.1 == id) = true) :
    authN s n id email = s := by
  induction n with
  | zero => rfl
  | succ n ih =>
    have h1 : authN s (n + 1) id email = authN (authenticate s id email) n id email := rfl
    rw [h1, authenticate_fixed s id email h]
    exact ih

/-- Claim C4: starting from a state in which identity `id` is unknown (no
`auth.users` row, no `public.users` row, and its email unused), after the
first authentication and any number of repeats there is exactly one Account
row for `id`, and it carries the default flags `access=false`,
`is_admin=false`. -/
theorem c4_provisioning_idempotent (s : AuthState) (id : Nat) (email : String) (n : Nat)
    (hA : ∀ p ∈ s.auth_users, p.1 ≠ id)
    (hU : ∀ u ∈ s.users, u.id ≠ id)
    (hE : ∀ u ∈ s.users, u.email ≠ email) :
    ((authN s (n + 1) id email).users.filter (fun u => u.id == id)).length = 1 ∧
    ∀ u ∈ (authN s (n + 1) id email).users, u.id = id →
      u.access = false ∧ u.is_admin = false ∧ u.email = email := by
  have hguard : s.auth_users.any (fun p => p.1 == id) = false := by
    rw [← Bool.not_eq_true, List.any_eq_true]
    rintro ⟨p, hp, hb⟩
    exact hA p hp (by simpa using hb)
  have hconf : s.users.any (fun u => u.id == id || u.email == email) = false := by
    rw [← Bool.not_eq_true, List.any_eq_true]
    rintro ⟨u, hu, hb⟩
    have hb' : u.id = id ∨ u.email = email := by simpa using hb
    rcases hb' with h | h
    · exact hU u hu h
    · exact hE u hu h
  have hins : handle_new_user s.users id email = s.users ++ [⟨id, email, false, false⟩] := by
    rw [handle_new_user, if_neg (by simp [hconf])]
  have hs1 : authenticate s id email =
      ⟨s.auth_users ++ [(id, email)], s.users ++ [⟨id, email, false, false⟩]⟩ := by
    rw [authenticate, if_neg (by simp [hguard]), hins]
  have hfix : authN s (n + 1) id email = authenticate s id email := by
    have h1 : authN s (n + 1) id email = authN (authenticate s id email) n id email := rfl
    rw [h1, authN_fixed _ id email n (authenticate_has_id s id email)]
  rw [hfix, hs1]
  constructor
  · rw [List.filter_append]
    have h2 : s.users.filter (fun u => u.id == id) = [] := by
      rw [List.filter_eq_nil_iff]
      intro u hu
      simp [hU u hu]
    rw [h2]
    simp
  · intro u hu huid
    rcases List.mem_append.mp hu with h | h
    · exact absurd huid (hU u h)
    · have hEq : u = ⟨id, email, false, false⟩ := by simpa using h
      rw [hEq]
      exact ⟨rfl, rfl, rfl⟩

/-- Witness for C4: from the empty state, identity 9 authenticates three
times and ends with exactly one default-flag Account row. -/
theorem c4_witness :
    ((authN ⟨[], []⟩ (2 + 1) 9 "new@x").users.filter (fun u => u.id == 9)).length = 1 ∧
    ∀ u ∈ (authN (⟨[], []⟩ : AuthState) (2 + 1) 9 "new@x").users, u.id = 9 →
      u.access = false ∧ u.is_admin = false ∧ u.email = "new@x" :=
  c4_provisioning_idempotent ⟨[], []⟩ 9 "new@x" 2 (by decide) (by decide) (by decide)

/-- Claim C5: deleting a Subject removes every Note and Video referencing
it, and if the store had no orphan rows before, it has none afterwards. -/
theorem c5_cascade_delete_no_orphans (db : DB) (sid : Nat) (h : noOrphans db) :
    (∀ n ∈ (deleteSubject db sid).notes, n.subject_id ≠ sid) ∧
    (∀ v ∈ (deleteSubject db sid).videos, v.subject_id ≠ sid) ∧
    noOrphans (deleteSubject db sid) := by
  obtain ⟨hn, hv⟩ := h
  refine ⟨?_, ?_, ?_, ?_⟩
  · intro n hm
    have := (List.mem_filter.mp hm).2
    simpa using this
  · intro v hm
    have := (List.mem_filter.mp hm).2
    simpa using this
  · intro n hm
    obtain ⟨hmem, hpred⟩ := List.mem_filter.mp hm
    obtain ⟨s, hs, hsid⟩ := hn n hmem
    refine ⟨s, List.mem_filter.mpr ⟨hs, ?_⟩, hsid⟩
    simp only [Bool.not_eq_true', beq_eq_false_iff_ne, ne_eq] at hpred ⊢
    rw [hsid]
    exact hpred
  · intro v hm
    obtain ⟨hmem, hpred⟩ := List.mem_filter.mp hm
    obtain ⟨s, hs, hsid⟩ := hv v hmem
    refine ⟨s, List.mem_filter.mpr ⟨hs, ?_⟩, hsid⟩
    simp only [Bool.not_eq_true', beq_eq_false_iff_ne, ne_eq] at hpred ⊢
    rw [hsid]
    exact hpred

/-- Witness for C5: deleting subject 4 of `dbFix` leaves no note or video
referencing it and no orphan rows. -/
theorem c5_witness :
    (∀ n ∈ (deleteSubject dbFix 4).notes, n.subject_id ≠ 4) ∧
    (∀ v ∈ (deleteSubject dbFix 4).videos, v.subject_id ≠ 4) ∧
    noOrphans (deleteSubject dbFix 4) :=
  c5_cascade_delete_no_orphans dbFix 4 ⟨by decide, by decide⟩

/-- Claim C6: when an administrator grants `access` to an account present in
the store (`toggleUserAccess` with `currentAccess = false`), the update is
accepted, the content tables are untouched, and the very next Note/Video
query issued as that account returns every existing row — the RLS condition
is re-evaluated against the updated `users` table, so no stale denial
persists. -/
theorem c6_grant_access_immediately_visible (db : DB) (aid tid : Nat)
    (hadmin : isAdminExists db aid = true)
    (hrow : ∃ t ∈ db.users, t.id = tid) :
    ∃ db', toggleUserAccess db aid tid false = some db' ∧
      db'.notes = db.notes ∧ db'.videos = db.videos ∧
      visibleNotes db' tid = db'.notes ∧ visibleVideos db' tid = db'.videos := by
  obtain ⟨t, ht, htid⟩ := hrow
  have hcheck : db.users.all (fun u =>
      if u.id == tid && usersUpdatePolicy db aid u then
        usersUpdatePolicy db aid { u with access := !false }
      else true) = true := by
    rw [List.all_eq_true]
    intro u hu
    by_cases hc : (u.id == tid && usersUpdatePolicy db aid u) = true
    · simp [hc, usersUpdatePolicy, hadmin]
    · simp [hc]
  have hguard : (t.id == tid && usersUpdatePolicy db aid t) = true := by
    simp [htid, usersUpdatePolicy, hadmin]
  have hmem : ({ t with access := !false } : UserRow) ∈
      (db.users.map (fun u =>
        if u.id == tid && usersUpdatePolicy db aid u then { u with access := !false }
        else u)) :=
    List.mem_map.mpr ⟨t, ht, by simp [hguard]⟩
  have hacc : hasAccessExists
      { db with users := db.users.map (fun u =>
          if u.id == tid && usersUpdatePolicy db aid u then { u with access := !false }
          else u) } tid = true := by
    rw [hasAccessExists, List.any_eq_true]
    exact ⟨{ t with access := !false }, hmem, by simp [htid]⟩
  refine ⟨{ db with users := db.users.map (fun u =>
      if u.id == tid && usersUpdatePolicy db aid u then { u with access := !false }
      else u) }, ?_, rfl, rfl, ?_, ?_⟩
  · rw [toggleUserAccess, updateUserRows, if_pos hcheck]
  · exact List.filter_eq_self.mpr (fun a _ => by
      simp only [notesSelectPolicy, hacc, Bool.true_or])
  · exact List.filter_eq_self.mpr (fun a _ => by
      simp only [videosSelectPolicy, hacc, Bool.true_or])

/-- Witness for C6: admin 1 of `dbFix` grants access to account 2; the next
notes and videos queries as account 2 return the full content tables. -/
theorem c6_witness :
    ∃ db', toggleUserAccess dbFix 1 2 false = some db' ∧
      db'.notes = dbFix.notes ∧ db'.videos = dbFix.videos ∧
      visibleNotes db' 2 = db'.notes ∧ visibleVideos db' 2 = db'.videos :=
  c6_grant_access_immediately_visible dbFix 1 2 (by decide) ⟨plainUser, by decide, rfl⟩

/-- Claim C7 counterexample: an empty subject name (and likewise a note with
empty title, no file and no subject) is a validation failure; both handlers
reject the operation but surface nothing — `surfaced = none` — contradicting
"surfaced to the caller as a rejected operation with a reason". -/
theorem c7_silent_validation_failure :
    (handleSave (some ⟨none, "", none⟩) 5 [subjM]).wrote = false ∧
    (handleSave (some ⟨none, "", none⟩) 5 [subjM]).surfaced = none ∧
    (handleAddNote ("" : String) none none 5 [noteCalc]).wrote = false ∧
    (handleAddNote ("" : String) none none 5 [noteCalc]).surfaced = none := by
  decide

/-- Claim C7 (amended): every validation failure (empty trimmed subject name
on save; empty title, missing file or missing subject selection on note
creation) rejects the operation — no write is issued and the table is
unchanged — but silently: the handlers return early and surface no reason to
the caller. -/
theorem c7_validation_rejects_silently :
    (∀ (e : EditingSubject) (newId : Nat) (subjects : List SubjectRow),
      jsTrim e.name = ("" : String) →
        handleSave (some e) newId subjects = ⟨subjects, false, none⟩) ∧
    (∀ (title : String) (file : Option String) (sel : Option Nat) (newId : Nat)
        (notes : List NoteRow),
      title = ("" : String) ∨ file = none ∨ sel = none →
        handleAddNote title file sel newId notes = ⟨notes, false, none⟩) := by
  constructor
  · intro e newId subjects h
    simp [handleSave, h]
  · intro title file sel newId notes h
    have hb : (title == ("" : String) || file.isNone || sel.isNone) = true := by
      rcases h with h | h | h <;> simp [h]
    simp [handleAddNote, hb]

/-- Witness for C7 (amended): a subject whose name is a single blank and a
note with a missing file are both rejected silently, leaving the tables
unchanged. -/
theorem c7_witness :
    handleSave (some ⟨some 4, " ", none⟩) 5 [subjM] = ⟨[subjM], false, none⟩ ∧
    handleAddNote ("t" : String) none (some 4) 5 [] = ⟨[], false, none⟩ :=
  ⟨c7_validation_rejects_silently.1 ⟨some 4, " ", none⟩ 5 [subjM] (by decide),
   c7_validation_rejects_silently.2 ("t" : String) none (some 4) 5 []
     (Or.inr (Or.inl rfl))⟩

/-- Claim C9: for a signed-in user whose profile is absent or has
`access=false`, the Dashboard issues no content queries at all (in
particular none for notes or videos) and renders the "Access Pending"
notice; when `access=true` it fetches subjects, notes and videos and does
not render the notice. -/
theorem c9_dashboard_gates_on_access :
    ∀ user : Option UserRow,
      ((user = none ∨ ∃ u, user = some u ∧ u.access = false) →
        dashboardQueries user = [] ∧ dashboardShowsAccessPending user = true) ∧
      (∀ u, user = some u → u.access = true →
        dashboardQueries user = [.subjects, .notes, .videos] ∧
          dashboardShowsAccessPending user = false) := by
  intro user
  constructor
  · rintro (rfl | ⟨u, rfl, hu⟩)
    · exact ⟨rfl, rfl⟩
    · simp [dashboardQueries, dashboardShowsAccessPending, optUserAccess, hu]
  · rintro u rfl hu
    simp [dashboardQueries, dashboardShowsAccessPending, optUserAccess, hu]

/-- Witness for C9: the pending account 2 triggers no queries and sees the
notice; the approved account 3 triggers all three queries. -/
theorem c9_witness :
    (dashboardQueries (some plainUser) = [] ∧
      dashboardShowsAccessPending (some plainUser) = true) ∧
    (dashboardQueries (some accessUser) = [.subjects, .notes, .videos] ∧
      dashboardShowsAccessPending (some accessUser) = false) :=
  ⟨(c9_dashboard_gates_on_access (some plainUser)).1 (Or.inr ⟨plainUser, rfl, rfl⟩),
   (c9_dashboard_gates_on_access (some accessUser)).2 accessUser rfl rfl⟩

/-- The first element surviving `dropWhile p`, when any does, fails `p`. -/
lemma dropWhile_head_not {α : Type} (p : α → Bool) (l : List α) :
    l.dropWhile p = [] ∨ ∃ d t', l.dropWhile p = d :: t' ∧ p d = false := by
  induction l with
  | nil => exact Or.inl rfl
  | cons a l ih =>
    by_cases h : p a = true
    · rw [List.dropWhile_cons, if_pos h]
      exact ih
    · rw [List.dropWhile_cons, if_neg h]
      exact Or.inr ⟨a, l, rfl, by simpa using h⟩

/-- A successful single-position attempt decomposes the input as the marker,
a nonempty delimiter-free capture, and a remainder that is empty or starts
with a delimiter. -/
lemma tryMarker_eq_some (m s v : List Char) (h : tryMarker m s = some v) :
    v ≠ [] ∧ (∀ c ∈ v, ytDelim c = false) ∧
    ∃ t, s = m ++ v ++ t ∧ (t = [] ∨ ∃ d t', t = d :: t' ∧ ytDelim d = true) := by
  rw [tryMarker] at h
  by_cases hp : m.isPrefixOf s = true
  case neg => rw [if_neg hp] at h; cases h
  rw [if_pos hp] at h
  by_cases hc : (s.drop m.length).takeWhile (fun c => !ytDelim c) = []
  · rw [if_pos hc] at h; cases h
  · rw [if_neg hc] at h
    injection h with hv
    obtain ⟨u, hu⟩ := List.isPrefixOf_iff_prefix.mp hp
    have hdrop : s.drop m.length = u := by rw [← hu, List.drop_left]
    refine ⟨hv ▸ hc, ?_, ?_⟩
    · intro c hcm
      rw [← hv] at hcm
      have := List.mem_takeWhile_imp hcm
      simpa using this
    · refine ⟨u.dropWhile (fun c => !ytDelim c), ?_, ?_⟩
      · rw [← hu, List.append_assoc]
        congr 1
        rw [← hv, hdrop]
        exact (List.takeWhile_append_dropWhile _ u).symm
      · rcases dropWhile_head_not (fun c => !ytDelim c) u with h0 | ⟨d, t', ht', hd⟩
        · exact Or.inl h0
        · exact Or.inr ⟨d, t', ht', by simpa using hd⟩

/-- If the marker is not a prefix of the input, the attempt fails. -/
lemma tryMarker_eq_none_of_not_prefix (m s : List Char) (h : ¬ m <+: s) :
    tryMarker m s = none := by
  rw [tryMarker, if_neg (fun hp => h (List.isPrefixOf_iff_prefix.mp hp))]

/-- A successful match at one position is by one of the two markers, with
the decomposition of `tryMarker_eq_some`. -/
lemma markerCapture_eq_some (s v : List Char) (h : markerCapture s = some v) :
    ∃ m, (m = ytMarker1 ∨ m = ytMarker2) ∧ v ≠ [] ∧ (∀ c ∈ v, ytDelim c = false) ∧
      ∃ t, s = m ++ v ++ t ∧ (t = [] ∨ ∃ d t', t = d :: t' ∧ ytDelim d = true) := by
  rw [markerCapture] at h
  cases h1 : tryMarker ytMarker1 s with
  | some w =>
    rw [h1] at h
    injection h with hw
    obtain ⟨a, b, c⟩ := tryMarker_eq_some ytMarker1 s v (hw ▸ h1)
    exact ⟨ytMarker1, Or.inl rfl, a, b, c⟩
  | none =>
    rw [h1] at h
    obtain ⟨a, b, c⟩ := tryMarker_eq_some ytMarker2 s v h
    exact ⟨ytMarker2, Or.inr rfl, a, b, c⟩

/-- The attempt at an empty input always fails. -/
lemma markerCapture_nil : markerCapture [] = none := rfl

/-- One unfolding step of the scan: try both alternatives at the current
position, else move one character right. -/
lemma getYouTubeVideoId_cons (c : Char) (rest : List Char) :
    getYouTubeVideoId (c :: rest) =
      (match markerCapture (c :: rest) with
       | some v => some v
       | none => getYouTubeVideoId rest) := by
  cases h1 : tryMarker ytMarker1 (c :: rest) <;>
    cases h2 : tryMarker ytMarker2 (c :: rest) <;>
      simp [getYouTubeVideoId, markerCapture, h1, h2]

/-- Structure of the scan: a returned id is the capture of the leftmost
position at which some alternative matches with a nonempty capture; a `none`
result means no position matches. -/
lemma getYouTubeVideoId_cases : ∀ s : List Char,
    (∀ v, getYouTubeVideoId s = some v →
      ∃ pre m t, (m = ytMarker1 ∨ m = ytMarker2) ∧ s = pre ++ m ++ v ++ t ∧
        v ≠ [] ∧ (∀ c ∈ v, ytDelim c = false) ∧
        (t = [] ∨ ∃ d t', t = d :: t' ∧ ytDelim d = true) ∧
        (∀ j < pre.length, markerCapture (s.drop j) = none)) ∧
    (getYouTubeVideoId s = none → ∀ j, markerCapture (s.drop j) = none) := by
  intro s
  induction s with
  | nil =>
    refine ⟨fun v hv => (nomatch hv), fun _ j => ?_⟩
    rw [List.drop_nil]
    exact markerCapture_nil
  | cons c rest ih =>
    constructor
    · intro v hv
      rw [getYouTubeVideoId_cons] at hv
      cases hmc : markerCapture (c :: rest) with
      | some w =>
        rw [hmc] at hv
        injection hv with hw
        obtain ⟨m, hm, hne, hdelim, t, hst, hhead⟩ :=
          markerCapture_eq_some (c :: rest) v (hw ▸ hmc)
        refine ⟨[], m, t, hm, by simpa using hst, hne, hdelim, hhead, ?_⟩
        intro j hj
        exact absurd hj (Nat.not_lt_zero j)
      | none =>
        rw [hmc] at hv
        obtain ⟨pre, m, t, hm, hst, hne, hdelim, hhead, hleft⟩ := ih.1 v hv
        refine ⟨c :: pre, m, t, hm, ?_, hne, hdelim, hhead, ?_⟩
        · simp [hst]
        · intro j hj
          cases j with
          | zero =>
            rw [List.drop_zero]
            exact hmc
          | succ j =>
            rw [List.drop_succ_cons]
            exact hleft j (by simpa using hj)
    · intro hnone j
      rw [getYouTubeVideoId_cons] at hnone
      cases hmc : markerCapture (c :: rest) with
      | some w => rw [hmc] at hnone; cases hnone
      | none =>
        rw [hmc] at hnone
        cases j with
        | zero =>
          rw [List.drop_zero]
          exact hmc
        | succ j =>
          rw [List.drop_succ_cons]
          exact ih.2 hnone j

/-- Claim C10 counterexample: the string `youtu.be/` contains the marker
`youtu.be/`, and the run of non-delimiter characters following that (first
and only) occurrence is empty, yet `getYouTubeVideoId` returns `null`
rather than that empty following substring — the regex group `([^&\n?#]+)`
demands at least one character. -/
theorem c10_marker_with_empty_id_returns_none :
    ytMarker2 <:+: ytMarker2 ∧
    (ytMarker2.drop ytMarker2.length).takeWhile (fun c => !ytDelim c) = [] ∧
    getYouTubeVideoId ytMarker2 = none :=
  ⟨List.infix_refl _, by decide, by decide⟩

/-- Claim C10 (amended): `getYouTubeVideoId url` returns `null` for every
string containing neither `youtube.com/watch?v=` nor `youtu.be/`; when it
returns an id, the id is the nonempty run of characters other than `&`,
newline, `?` and `#` that follows the first marker occurrence followed by at
least one such character, ending at the string's end or at the next
delimiter, and every earlier position matches no alternative; when it
returns `null`, no position of the string matches an alternative with a
nonempty capture.  The video thumbnail is rendered exactly when an id was
extracted. -/
theorem c10_extraction_characterization : ∀ s : List Char,
    (¬ (ytMarker1 <:+: s) ∧ ¬ (ytMarker2 <:+: s) → getYouTubeVideoId s = none) ∧
    (∀ v, getYouTubeVideoId s = some v →
      v ≠ [] ∧ (∀ c ∈ v, ytDelim c = false) ∧
      ∃ pre m t, (m = ytMarker1 ∨ m = ytMarker2) ∧ s = pre ++ m ++ v ++ t ∧
        (t = [] ∨ ∃ d t', t = d :: t' ∧ ytDelim d = true) ∧
        ∀ j < pre.length, markerCapture (s.drop j) = none) ∧
    (getYouTubeVideoId s = none → ∀ j, markerCapture (s.drop j) = none) ∧
    showsThumbnail s = (getYouTubeVideoId s).isSome := by
  intro s
  refine ⟨?_, ?_, (getYouTubeVideoId_cases s).2, rfl⟩
  · rintro ⟨h1, h2⟩
    cases hres : getYouTubeVideoId s with
    | none => rfl
    | some v =>
      obtain ⟨pre, m, t, hm, hst, _⟩ := (getYouTubeVideoId_cases s).1 v hres
      rcases hm with rfl | rfl
      · exact absurd ⟨pre, v ++ t, by rw [← List.append_assoc]; exact hst.symm⟩ h1
      · exact absurd ⟨pre, v ++ t, by rw [← List.append_assoc]; exact hst.symm⟩ h2
  · intro v hres
    obtain ⟨pre, m, t, hm, hst, hne, hdelim, hhead, hleft⟩ :=
      (getYouTubeVideoId_cases s).1 v hres
    exact ⟨hne, hdelim, pre, m, t, hm, hst, hhead, hleft⟩

/-- Witness for C10 (amended): a string containing neither marker yields no
id. -/
theorem c10_witness :
    getYouTubeVideoId ['x', 'y'] = none :=
  (c10_extraction_characterization ['x', 'y']).1
    ⟨fun h => absurd h.length_le (by decide), fun h => absurd h.length_le (by decide)⟩

end EdNotes


